import Mathlib

/-!
Shallow embedding of `src/bin/pg_autoctl/pgctl.c` (pg_auto_failover):
the PostgreSQL lifecycle-control subsystem.  Pure string manipulation is
translated into Lean functions on `String`/`List Char`; file-system state
is explicit (an association list from path to content) and the outcomes
of external program invocations and of `write_file` are supplied as
oracles, so every operation is a pure function of its inputs.
-/

namespace PgCtl

/-- The result of one external program invocation (`Program` of
`runprogram.h`): exit code, captured stdout and stderr.  C's `NULL`
stream pointers are modelled as `none`. -/
structure Program where
  returnCode : Int
  stdout : Option String
  stderr : Option String
deriving DecidableEq

/-! ### Constants from pgctl.c (lines 31-40) -/

def AUTOCTL_DEFAULTS_CONF_FILENAME : String := "postgresql-auto-failover.conf"

def AUTOCTL_CONF_INCLUDE_LINE : String :=
  "include 'postgresql-auto-failover.conf'"

def AUTOCTL_CONF_INCLUDE_COMMENT : String :=
  " # Auto-generated by pg_auto_failover, do not remove\n"

def AUTOCTL_STANDBY_CONF_FILENAME : String :=
  "postgresql-auto-failover-standby.conf"

def AUTOCTL_SB_CONF_INCLUDE_LINE : String :=
  "include 'postgresql-auto-failover-standby.conf'"

def PROGRAM_NOT_RUNNING : Int := 3

/-- Modelled from the spec: `BUFSIZE` (defaults.h, not under src/) is the
fixed scratch-buffer capacity used for `escaped` in
`prepare_primary_conninfo`. -/
def BUFSIZE : Nat := 1024

/-- Modelled from the spec: `MAXCONNINFO` (header not under src/) is the
capacity of the `primaryConnInfo` buffer. -/
def MAXCONNINFO : Nat := 1024

/-! ### escape_recovery_conf_string (pgctl.c lines 1027-1077)

The C function writes into a caller-supplied buffer of
`destinationSize` bytes.  We record every store as an `(index, char)`
pair, in program order, together with the boolean the function returns,
so that buffer-bounds claims are expressible. -/

/-- The NUL terminator stored by the C code. -/
def NUL : Char := Char.ofNat 0

/-- Result of running `escape_recovery_conf_string`: the ordered list of
stores into `destination` and the returned boolean. -/
structure EscOut where
  writes : List (Nat × Char)
  ok : Bool
deriving DecidableEq

/-- The per-character loop of `escape_recovery_conf_string` (lines
1046-1071) followed by the closing quote and NUL stores (lines
1073-1074).  `esc` is `escapedStringLength`; each capacity test
`destinationSize < escapedStringLength` is performed after the store it
follows in the C code. -/
def escLoop (dsize : Nat) : List Char → Nat → List (Nat × Char) → EscOut
  | [], esc, ws => ⟨ws ++ [(esc, '\''), (esc + 1, NUL)], true⟩
  | c :: cs, esc, ws =>
    if c = '\'' then
      let ws1 := ws ++ [(esc, '\'')]
      if dsize < esc + 1 then ⟨ws1, false⟩
      else
        let ws2 := ws1 ++ [(esc + 1, c)]
        if dsize < esc + 2 then ⟨ws2, false⟩
        else escLoop dsize cs (esc + 2) ws2
    else
      let ws1 := ws ++ [(esc, c)]
      if dsize < esc + 1 then ⟨ws1, false⟩
      else escLoop dsize cs (esc + 1) ws1

/-- `escape_recovery_conf_string` (lines 1027-1077): up-front capacity
check `destinationSize < length + 3` (line 1036), initial opening-quote
store at index 0 (line 1044), then the loop. -/
def escape_recovery_conf_string (dsize : Nat) (s : List Char) : EscOut :=
  if dsize < s.length + 3 then ⟨[], false⟩
  else escLoop dsize s 1 [(0, '\'')]

/-- The pure value of the escaped string (sans NUL): the opening quote,
the input with every single quote doubled, and the closing quote.  This
is the character sequence the loop stores on the success path (proved
below in `escLoop_ok_map`). -/
def quoteDouble : List Char → List Char
  | [] => []
  | c :: cs => if c = '\'' then '\'' :: c :: quoteDouble cs else c :: quoteDouble cs

def escapeString (s : List Char) : List Char :=
  '\'' :: (quoteDouble s ++ ['\''])

/-- The inverse operation named by the spec's round-trip property:
collapse every doubled single quote back to one. -/
def collapseDoubledQuotes : List Char → List Char
  | [] => []
  | [c] => [c]
  | c1 :: c2 :: cs =>
    if c1 = '\'' ∧ c2 = '\'' then '\'' :: collapseDoubledQuotes cs
    else c1 :: collapseDoubledQuotes (c2 :: cs)

/-! ### File-system and path model

`write_file`/`read_file` (file_utils.c, not under src/) are the generic
file-I/O collaborators.  The file system is an association list from
path to content, newest binding first; a write-success oracle
`w : String → Bool` decides, per path, whether `write_file` succeeds. -/

abbrev FS := List (String × String)

def fsRead : FS → String → Option String
  | [], _ => none
  | (q, c) :: rest, p => if q = p then some c else fsRead rest p

def fsWrite (fs : FS) (p c : String) : FS := (p, c) :: fs

/-- Outcome of a file-system-mutating operation: the returned boolean,
the new file system, and the ordered list of paths written. -/
structure OpOut where
  ok : Bool
  fs : FS
  trace : List String
deriving DecidableEq

/-- `write_file(content, len, path)`: full replacement of the file's
content, success decided by the oracle. -/
def write_file (w : String → Bool) (content path : String) (fs : FS) : OpOut :=
  if w path then ⟨true, fsWrite fs path content, [path]⟩ else ⟨false, fs, []⟩

/-- Modelled from the spec: `join_path_components` (file_utils.c, not
under src/) concatenates a directory and a file name with a separator. -/
def joinPath (dir fname : String) : String := dir ++ "/" ++ fname

/-- Modelled from the spec: `path_in_same_directory` (file_utils.c, not
under src/) places `fname` in the parent directory of `path`: everything
of `path` up to (excluding) its last slash, then the new file name. -/
def dirOf (p : String) : String :=
  String.mk (((p.data.reverse.dropWhile (fun c => c ≠ '/')).reverse).dropLast)

def pathInSameDirectory (path fname : String) : String :=
  joinPath (dirOf path) fname

/-! ### ServerHandle (PostgresSetup) and ControlData -/

/-- The fields of `PostgresSetup` (pgctl.h, not under src/) that
pgctl.c reads or writes.  `control` holds the `ControlData` record most
recently parsed by `parse_controldata` into `pgSetup->control`;
it is abstracted to the raw text it was parsed from. -/
structure PostgresSetup where
  pgdata : String
  pg_ctl : String
  pg_version : String
  control : Option String
  listen_addresses : String
  pgport : Nat
deriving DecidableEq

/-! ### pg_controldata (pgctl.c lines 97-162)

The successive `run_program` results are an oracle list, consumed one
element per invocation of the inspection tool.  The C function recurses
on itself when the tool exits 0 with a NULL stdout (lines 118-126); the
guard on empty `pgdata`/`pg_ctl` (line 103) re-evaluates identically on
re-entry since the setup is unchanged, so it is checked once here.  The
result is `none` when the oracle list is exhausted while the recursion
is still running, `some (returned bool, final setup, number of tool
invocations)` otherwise.  `parse` models `parse_controldata`
(parsing.c, not under src/): `some` is a successful parse. -/

def pg_controldata_loop (parse : String → Option String) (missing_ok : Bool)
    (s : PostgresSetup) : List Program → Option (Bool × PostgresSetup × Nat)
  | [] => none
  | prog :: rest =>
    if prog.returnCode = 0 then
      match prog.stdout with
      | none =>
        /- empty output: log, sleep(1), recurse (lines 118-126) -/
        (pg_controldata_loop parse missing_ok s rest).map
          (fun r => (r.1, r.2.1, r.2.2 + 1))
      | some out =>
        match parse out with
        | none => some (false, s, 1)
        | some cd => some (true, { s with control := some cd }, 1)
    else
      /- non-zero exit: log unless missing_ok; return missing_ok -/
      some (missing_ok, s, 1)

def pg_controldata (parse : String → Option String) (missing_ok : Bool)
    (s : PostgresSetup) (oracle : List Program) :
    Option (Bool × PostgresSetup × Nat) :=
  if s.pgdata = "" ∨ s.pg_ctl = "" then some (false, s, 0)
  else pg_controldata_loop parse missing_ok s oracle

/-! ### config_find_pg_ctl (pgctl.c lines 171-211)

`search_pathlist` results and `pg_ctl_version` are oracles.  Both
`pg_ctl` and `pg_version` are cleared (lines 177-178), then set when
exactly one program is found (lines 180-191). -/

def config_find_pg_ctl (pg_ctls : List String) (version : String → String)
    (s : PostgresSetup) : Nat × PostgresSetup :=
  let s1 := { s with pg_ctl := "", pg_version := "" }
  match pg_ctls with
  | [program] =>
    (1, { s1 with pg_ctl := program, pg_version := version program })
  | other => (other.length, s1)

/-! ### ensure_default_settings_file_exists (pgctl.c lines 325-432) -/

/-- A `GUC`: setting name and value; a `NULL` value is `none`.  The C
array's `{ NULL, NULL }` sentinel is the end of the Lean list. -/
abbrev GUC := String × Option String

/-- One line of the generated settings file (lines 336-380):
`listen_addresses` and `port` draw their values from `pgSetup`
(single-quoted resp. integer-rendered); any other setting uses its own
value, and a `NULL` value is the `BUG` error path (line 376).  `pgSetup`
is `none` when the C caller passes `NULL` (line 1184); the code comment
guarantees the `listen_addresses`/`port` branches are then not taken, so
those branches yield `none` here as well. -/
def renderGUC (ps : Option PostgresSetup) (g : GUC) : Option String :=
  if g.1 = "listen_addresses" then
    ps.map (fun s => "listen_addresses = '" ++ s.listen_addresses ++ "'\n")
  else if g.1 = "port" then
    ps.map (fun s => "port = " ++ toString s.pgport ++ "\n")
  else
    g.2.map (fun v => g.1 ++ " = " ++ v ++ "\n")

/-- The full rendered content: banner line (line 333) then one line per
setting. -/
def renderGUCs (settings : List GUC) (ps : Option PostgresSetup) :
    Option String :=
  (settings.mapM (renderGUC ps)).map
    (fun ls => "# Settings by pg_auto_failover\n" ++ String.join ls)

/-- `ensure_default_settings_file_exists`: render; if the target exists
with byte-identical content, no-op success (lines 404-411); otherwise
write the rendered content (line 423). -/
def ensure_default_settings_file_exists (w : String → Bool) (fs : FS)
    (configFilePath : String) (settings : List GUC)
    (ps : Option PostgresSetup) : OpOut :=
  match renderGUCs settings ps with
  | none => ⟨false, fs, []⟩
  | some content =>
    match fsRead fs configFilePath with
    | some current =>
      if current = content then ⟨true, fs, []⟩
      else write_file w content configFilePath fs
    | none => write_file w content configFilePath fs

/-! ### pg_include_config (pgctl.c lines 253-318) -/

/-- Split a character list into lines at newline characters. -/
def splitLinesCL : List Char → List (List Char)
  | [] => [[]]
  | c :: rest =>
    if c = '\n' then [] :: splitLinesCL rest
    else
      match splitLinesCL rest with
      | [] => [[c]]
      | h :: t => (c :: h) :: t

/-- Modelled from the spec: `regexp_first_match` (parsing.c, not under
src/) applied to the include-detection patterns
(`"^include 'postgresql-auto-failover…conf'.*"`, pgctl.c lines 33 and
38): the pattern matches the contents exactly when some line begins
with the include-line text. -/
def includeLineFound (contents includeLine : String) : Bool :=
  (splitLinesCL contents.data).any (fun l => List.isPrefixOf includeLine.data l)

/-- Number of lines of `contents` matching the detection pattern for
`includeLine`. -/
def includeLineCount (contents includeLine : String) : Nat :=
  (splitLinesCL contents.data).countP (fun l => List.isPrefixOf includeLine.data l)

/-- `pg_include_config`: read the target file (failure if unreadable,
line 265); if the detection pattern already matches, success without
modification (lines 271-280); otherwise write
`includeLine ++ comment ++ originalContents` back to the same path
(lines 293-313).  The regex argument is represented by `includeLine`
itself, which both C call sites pair with their regex. -/
def pg_include_config (w : String → Bool) (fs : FS)
    (configFilePath includeLine comment : String) : OpOut :=
  match fsRead fs configFilePath with
  | none => ⟨false, fs, []⟩
  | some contents =>
    if includeLineFound contents includeLine then ⟨true, fs, []⟩
    else write_file w (includeLine ++ comment ++ contents) configFilePath fs

/-! ### prepare_primary_conninfo (pgctl.c lines 1083-1133) -/

/-- The conninfo text assembled in the PQExpBuffer (lines 1095-1102):
`host=… port=… user=…` and, when a password is supplied,
` password=…`. -/
def conninfoBuffer (primaryHost : String) (primaryPort : Nat)
    (replicationUsername : String) (replicationPassword : Option String) :
    String :=
  "host=" ++ primaryHost ++ " port=" ++ toString primaryPort ++
    " user=" ++ replicationUsername ++
    (match replicationPassword with
     | some w => " password=" ++ w
     | none => "")

/-- `prepare_primary_conninfo`: build the buffer, escape it into a
`BUFSIZE` scratch buffer via `escape_recovery_conf_string` (line 1112),
then `snprintf` the escaped text into the caller's buffer of
`primaryConnInfoSize` bytes (line 1120).  `snprintf` stores at most
`cap - 1` characters plus NUL and returns the untruncated length; the
C code then fails only when `size > primaryConnInfoSize` (line 1122),
so an exact-fit overflow (`size = cap`) passes with truncated content.
On the escape success path the scratch buffer holds `escapeString` of
the input (theorem `escape_ok_chars` below). -/
def prepare_primary_conninfo (cap : Nat) (primaryHost : String)
    (primaryPort : Nat) (replicationUsername : String)
    (replicationPassword : Option String) : Option String :=
  let buffer := conninfoBuffer primaryHost primaryPort
    replicationUsername replicationPassword
  if (escape_recovery_conf_string BUFSIZE buffer.data).ok then
    let escaped := escapeString buffer.data
    if escaped.length > cap then none
    else some (String.mk (escaped.take (cap - 1)))
  else none

/-! ### pg_write_recovery_conf (pgctl.c lines 979-1018) -/

/-- The recovery.conf content (lines 991-995). -/
def recoveryConfContents (primaryConnInfo replicationSlotName : String) :
    String :=
  "standby_mode = 'on'" ++
    "\nprimary_conninfo = " ++ primaryConnInfo ++
    "\nprimary_slot_name = '" ++ replicationSlotName ++ "'" ++
    "\nrecovery_target_timeline = 'latest'" ++
    "\n"

/-- `pg_write_recovery_conf`: write the four-directive content to
`$pgdata/recovery.conf`. -/
def pg_write_recovery_conf (w : String → Bool) (fs : FS)
    (pgdata primaryConnInfo replicationSlotName : String) : OpOut :=
  write_file w (recoveryConfContents primaryConnInfo replicationSlotName)
    (joinPath pgdata "recovery.conf") fs

/-! ### pg_write_standby_signal (pgctl.c lines 1142-1206) -/

/-- The three standby settings (lines 1148-1153). -/
def standbySettings (primaryConnInfo replicationSlotName : String) :
    List GUC :=
  [("primary_conninfo", some primaryConnInfo),
   ("primary_slot_name", some replicationSlotName),
   ("recovery_target_timeline", some "latest")]

/-- `pg_write_standby_signal`: write the empty `standby.signal` trigger
file first (lines 1164-1172), then render the standby settings file at
`standbyConfigFilePath` (lines 1178-1187), then call `pg_include_config`
— note the C code passes `standbyConfigFilePath`, not `configFilePath`,
as the file to receive the include directive (line 1195). -/
def pg_write_standby_signal (w : String → Bool) (fs : FS)
    (configFilePath pgdata primaryConnInfo replicationSlotName : String) :
    OpOut :=
  let signalFilePath := joinPath pgdata "standby.signal"
  let o1 := write_file w "" signalFilePath fs
  if !o1.ok then ⟨false, o1.fs, o1.trace⟩
  else
    let standbyConfigFilePath :=
      pathInSameDirectory configFilePath AUTOCTL_STANDBY_CONF_FILENAME
    let o2 := ensure_default_settings_file_exists w o1.fs
      standbyConfigFilePath
      (standbySettings primaryConnInfo replicationSlotName) none
    if !o2.ok then ⟨false, o2.fs, o1.trace ++ o2.trace⟩
    else
      let o3 := pg_include_config w o2.fs standbyConfigFilePath
        AUTOCTL_SB_CONF_INCLUDE_LINE AUTOCTL_CONF_INCLUDE_COMMENT
      ⟨o3.ok, o3.fs, o1.trace ++ o2.trace ++ o3.trace⟩

/-! ### pg_setup_standby_mode (pgctl.c lines 927-972) -/

structure NodeAddress where
  host : String
  port : Nat
deriving DecidableEq

structure ReplicationSource where
  primaryNode : NodeAddress
  userName : String
  password : Option String
  slotName : String
deriving DecidableEq

/-- `pg_setup_standby_mode`: prepare the primary conninfo (failure
aborts, lines 937-946), then branch on the control version against
threshold 1200 (line 948): legacy recovery.conf below, standby.signal
plus included settings file at or above. -/
def pg_setup_standby_mode (w : String → Bool) (fs : FS)
    (pg_control_version : Nat) (configFilePath pgdata : String)
    (rs : ReplicationSource) : OpOut :=
  match prepare_primary_conninfo MAXCONNINFO rs.primaryNode.host
      rs.primaryNode.port rs.userName rs.password with
  | none => ⟨false, fs, []⟩
  | some primaryConnInfo =>
    if pg_control_version < 1200 then
      pg_write_recovery_conf w fs pgdata primaryConnInfo rs.slotName
    else
      pg_write_standby_signal w fs configFilePath pgdata primaryConnInfo
        rs.slotName

/-! ### pg_ctl_start (pgctl.c lines 630-766) -/

/-- Observable outcome of `pg_ctl_start`: the returned boolean, whether
the `pg_ctl status` disambiguation probe ran, the `(path, content)`
pairs appended to files, and the texts surfaced at warn resp. error
level that carry the start command's captured stdout. -/
structure StartOut where
  success : Bool
  statusProbeRan : Bool
  appends : List (String × String)
  warnedOutput : List String
  erroredOutput : List String
deriving DecidableEq

/-- `pg_ctl_start`: run `pg_ctl … --wait start` (its result is the
`start` oracle).  On non-zero return, run `pg_ctl status -D pgdata`
(the `statusP` oracle): status 0 reclassifies the failure as success
with the start stdout logged at warn level (lines 716-733); otherwise
failure with the start stdout logged at error level (lines 734-745).
In every path, a non-NULL start stdout is appended to
`$pgdata/startup.log` (lines 758-761). -/
def pg_ctl_start (pgdata : String) (start statusP : Program) : StartOut :=
  let logfile := joinPath pgdata "startup.log"
  let appends :=
    match start.stdout with
    | some out => [(logfile, out)]
    | none => []
  if start.returnCode ≠ 0 then
    if statusP.returnCode = 0 then
      { success := true, statusProbeRan := true, appends := appends,
        warnedOutput := (match start.stdout with
                         | some out => [out]
                         | none => []),
        erroredOutput := [] }
    else
      { success := false, statusProbeRan := true, appends := appends,
        warnedOutput := [],
        erroredOutput := (match start.stdout with
                          | some out => [out]
                          | none => []) }
  else
    { success := true, statusProbeRan := false, appends := appends,
      warnedOutput := [], erroredOutput := [] }

/-! ### pg_ctl_stop (pgctl.c lines 774-840) -/

/-- Observable outcome of `pg_ctl_stop`: the returned boolean, whether
the `pg_ctl status` probe ran, and the stop command's captured output
surfaced through `log_program_output` on the failure path. -/
structure StopOut where
  success : Bool
  statusProbeRan : Bool
  surfacedOutput : List String
deriving DecidableEq

/-- `pg_ctl_stop`: run `pg_ctl --pgdata … --wait stop --mode fast` (the
`stop` oracle).  Zero return code is success (lines 795-799); otherwise
a missing data directory is success without a status probe (lines
805-812); otherwise run `pg_ctl_status` (whose exit code is the
`statusCode` oracle): `PROGRAM_NOT_RUNNING` is success (lines 823-829),
anything else is failure with the stop command's captured output
surfaced (lines 831-839). -/
def pg_ctl_stop (stop : Program) (pgdataExists : Bool) (statusCode : Int) :
    StopOut :=
  if stop.returnCode = 0 then ⟨true, false, []⟩
  else if !pgdataExists then ⟨true, false, []⟩
  else if statusCode = PROGRAM_NOT_RUNNING then ⟨true, true, []⟩
  else
    ⟨false, true,
      (match stop.stdout with
       | some out => [out]
       | none => []) ++
      (match stop.stderr with
       | some err => [err]
       | none => [])⟩

/-! ### Helper lemmas -/

/-- On the success path, the characters stored by the escape loop are
the pending writes, the quote-doubled remaining input, the closing
quote, and the NUL terminator. -/
theorem escLoop_ok_map (dsize : Nat) :
    ∀ (s : List Char) (esc : Nat) (ws : List (Nat × Char)),
      (escLoop dsize s esc ws).ok = true →
      (escLoop dsize s esc ws).writes.map Prod.snd =
        ws.map Prod.snd ++ quoteDouble s ++ ['\'', NUL]
  | [], esc, ws, _ => by simp [escLoop, quoteDouble]
  | c :: cs, esc, ws, h => by
    by_cases hc : c = '\''
    · subst hc
      simp only [escLoop, if_pos rfl, if_true] at h ⊢
      by_cases h1 : dsize < esc + 1
      · simp [h1] at h
      · simp only [if_neg h1] at h ⊢
        by_cases h2 : dsize < esc + 2
        · simp [h2] at h
        · simp only [if_neg h2] at h ⊢
          rw [escLoop_ok_map dsize cs (esc + 2) _ h]
          simp [quoteDouble]
    · simp only [escLoop, if_neg hc] at h ⊢
      by_cases h1 : dsize < esc + 1
      · simp [h1] at h
      · simp only [if_neg h1] at h ⊢
        rw [escLoop_ok_map dsize cs (esc + 1) _ h]
        simp [quoteDouble, hc]

/-- On success, `escape_recovery_conf_string` stores exactly
`escapeString` of its input followed by the NUL terminator. -/
theorem escape_ok_chars (dsize : Nat) (s : List Char)
    (h : (escape_recovery_conf_string dsize s).ok = true) :
    (escape_recovery_conf_string dsize s).writes.map Prod.snd =
      escapeString s ++ [NUL] := by
  by_cases h0 : dsize < s.length + 3
  · simp [escape_recovery_conf_string, h0] at h
  · simp only [escape_recovery_conf_string, if_neg h0] at h ⊢
    rw [escLoop_ok_map dsize s 1 [(0, '\'')] h]
    simp [escapeString]

theorem collapseDoubledQuotes_cons_ne (c : Char) (l : List Char)
    (hc : c ≠ '\'') :
    collapseDoubledQuotes (c :: l) = c :: collapseDoubledQuotes l := by
  cases l with
  | nil => rfl
  | cons c2 cs => simp [collapseDoubledQuotes, hc]

/-- Collapsing doubled quotes inverts quote doubling. -/
theorem collapseDoubledQuotes_quoteDouble :
    ∀ s : List Char, collapseDoubledQuotes (quoteDouble s) = s
  | [] => rfl
  | c :: cs => by
    by_cases hc : c = '\''
    · subst hc
      simp [quoteDouble, collapseDoubledQuotes,
        collapseDoubledQuotes_quoteDouble cs]
    · rw [quoteDouble, if_neg hc, collapseDoubledQuotes_cons_ne c _ hc,
        collapseDoubledQuotes_quoteDouble cs]

theorem isPrefixOf_append : ∀ l t : List Char, List.isPrefixOf l (l ++ t) = true
  | [], t => by cases t <;> rfl
  | a :: l, t => by simp [List.isPrefixOf, isPrefixOf_append l t]

/-- Two appended strings differ when their right parts disagree at some
position counted from the end. -/
theorem append_ne_of_rev_getElem (a b x y : String) (i : Nat)
    (hx : i < x.data.length) (hy : i < y.data.length)
    (hne : x.data.reverse[i]? ≠ y.data.reverse[i]?) :
    a ++ x ≠ b ++ y := by
  intro h
  apply hne
  have hd : a.data ++ x.data = b.data ++ y.data := by
    have h2 := congrArg String.data h
    simpa [String.data_append] using h2
  have hr : x.data.reverse ++ a.data.reverse =
      y.data.reverse ++ b.data.reverse := by
    have h2 := congrArg List.reverse hd
    simpa [List.reverse_append] using h2
  calc x.data.reverse[i]?
      = (x.data.reverse ++ a.data.reverse)[i]? :=
        (List.getElem?_append_left (by simpa using hx)).symm
    _ = (y.data.reverse ++ b.data.reverse)[i]? := by rw [hr]
    _ = y.data.reverse[i]? := List.getElem?_append_left (by simpa using hy)

theorem recovery_ne_signal (pgdata : String) :
    joinPath pgdata "recovery.conf" ≠ joinPath pgdata "standby.signal" := by
  unfold joinPath
  exact append_ne_of_rev_getElem _ _ _ _ 0 (by decide) (by decide) (by decide)

theorem sbconf_ne_signal (cfg pgdata : String) :
    pathInSameDirectory cfg AUTOCTL_STANDBY_CONF_FILENAME ≠
      joinPath pgdata "standby.signal" := by
  unfold pathInSameDirectory joinPath AUTOCTL_STANDBY_CONF_FILENAME
  exact append_ne_of_rev_getElem _ _ _ _ 0 (by decide) (by decide) (by decide)

theorem recovery_ne_sbconf (pgdata cfg : String) :
    joinPath pgdata "recovery.conf" ≠
      pathInSameDirectory cfg AUTOCTL_STANDBY_CONF_FILENAME := by
  unfold pathInSameDirectory joinPath AUTOCTL_STANDBY_CONF_FILENAME
  exact append_ne_of_rev_getElem _ _ _ _ 6 (by decide) (by decide) (by decide)

theorem fsRead_write_ne (fs : FS) (p q : String) (c : String) (h : p ≠ q) :
    fsRead (fsWrite fs p c) q = fsRead fs q := by
  simp [fsWrite, fsRead, h]

theorem fsRead_write_self (fs : FS) (p : String) (c : String) :
    fsRead (fsWrite fs p c) p = some c := by
  simp [fsWrite, fsRead]

/-! ### Claim theorems -/

/-- C3: the claim says every write lands strictly below the capacity or
the call fails with a capacity error.  Evaluating the code on the input
`''` (two single quotes) with a destination capacity of 5 bytes: the
up-front check `5 < 2 + 3` passes, the per-character checks all pass,
and the unchecked closing-quote and NUL stores land at indices 5 and 6 —
at and past the capacity — while the function returns success. -/
theorem escape_writes_out_of_bounds :
    (escape_recovery_conf_string 5 ['\'', '\'']).ok = true ∧
    (5, '\'') ∈ (escape_recovery_conf_string 5 ['\'', '\'']).writes ∧
    (6, NUL) ∈ (escape_recovery_conf_string 5 ['\'', '\'']).writes := by
  decide

/-- C5: on success, the stored characters (dropping the NUL terminator)
begin and end with a single quote, and stripping those outer quotes then
collapsing every doubled quote reproduces the input exactly. -/
theorem escape_round_trip (dsize : Nat) (s : List Char)
    (h : (escape_recovery_conf_string dsize s).ok = true) :
    (((escape_recovery_conf_string dsize s).writes.map Prod.snd).dropLast).head? =
        some '\'' ∧
    (((escape_recovery_conf_string dsize s).writes.map Prod.snd).dropLast).getLast? =
        some '\'' ∧
    collapseDoubledQuotes
        (((((escape_recovery_conf_string dsize s).writes.map
          Prod.snd).dropLast).drop 1).dropLast) = s := by
  rw [escape_ok_chars dsize s h]
  rw [show (escapeString s ++ [NUL]).dropLast = escapeString s from
    List.dropLast_concat]
  refine ⟨rfl, ?_, ?_⟩
  · rw [escapeString, ← List.cons_append]
    exact List.getLast?_concat _
  · rw [escapeString]
    rw [show (('\'' : Char) :: (quoteDouble s ++ ['\''])).drop 1 =
      quoteDouble s ++ ['\''] from rfl]
    rw [List.dropLast_concat, collapseDoubledQuotes_quoteDouble]

/-- Witness for C5 at the concrete input `a'b` with capacity 10. -/
theorem escape_round_trip_witness :
    (((escape_recovery_conf_string 10 "a'b".data).writes.map
        Prod.snd).dropLast).head? = some '\'' ∧
    (((escape_recovery_conf_string 10 "a'b".data).writes.map
        Prod.snd).dropLast).getLast? = some '\'' ∧
    collapseDoubledQuotes
        (((((escape_recovery_conf_string 10 "a'b".data).writes.map
          Prod.snd).dropLast).drop 1).dropLast) = "a'b".data :=
  escape_round_trip 10 "a'b".data (by decide)

/-- C2 counterexample: with two consecutive empty-output results before
a good one, the reader performs three tool invocations during the one
external call — the second consecutive empty result is itself retried,
so the claimed two-invocation bound is false. -/
theorem controldata_retry_counterexample :
    (pg_controldata (fun out => some out) false
        ⟨"/d", "/bin/pg_ctl", "", none, "*", 5432⟩
        [⟨0, none, none⟩, ⟨0, none, none⟩, ⟨0, some "data", none⟩]).map
        (fun r => r.2.2) = some 3 ∧ ¬(3 ≤ 2) := by
  decide

/-- Every consecutive empty-output result is retried by the loop: with
`es` empty successes before a decisive result, `es.length + 1` tool
invocations happen. -/
theorem controldata_loop_retries (parse : String → Option String)
    (m : Bool) (s : PostgresSetup) (prog : Program) (rest : List Program)
    (hp : ¬(prog.returnCode = 0 ∧ prog.stdout = none)) :
    ∀ es : List Program, (∀ e ∈ es, e.returnCode = 0 ∧ e.stdout = none) →
      ∃ r s', pg_controldata_loop parse m s (es ++ prog :: rest) =
        some (r, s', es.length + 1) := by
  intro es
  induction es with
  | nil =>
    intro _
    by_cases h0 : prog.returnCode = 0
    · cases hso : prog.stdout with
      | none => exact absurd ⟨h0, hso⟩ hp
      | some out =>
        cases hpr : parse out with
        | none =>
          exact ⟨false, s, by simp [pg_controldata_loop, h0, hso, hpr]⟩
        | some cd =>
          exact ⟨true, { s with control := some cd },
            by simp [pg_controldata_loop, h0, hso, hpr]⟩
    · exact ⟨m, s, by simp [pg_controldata_loop, h0]⟩
  | cons e es ih =>
    intro he
    obtain ⟨r, s', hres⟩ := ih (fun x hx => he x (List.mem_cons_of_mem e hx))
    have he1 := he e (List.mem_cons_self e es)
    refine ⟨r, s', ?_⟩
    simp [pg_controldata_loop, he1.1, he1.2, hres]

/-- C2 (amended): on the empty-output path the reader retries after the
one-second delay on every consecutive empty result, with no bound at
this layer: `k` consecutive empty results cost `k + 1` tool invocations
in one external call. -/
theorem controldata_unbounded_retry (parse : String → Option String)
    (m : Bool) (s : PostgresSetup) (es : List Program) (prog : Program)
    (rest : List Program)
    (hpg : s.pgdata ≠ "") (hctl : s.pg_ctl ≠ "")
    (he : ∀ e ∈ es, e.returnCode = 0 ∧ e.stdout = none)
    (hp : ¬(prog.returnCode = 0 ∧ prog.stdout = none)) :
    ∃ r s', pg_controldata parse m s (es ++ prog :: rest) =
      some (r, s', es.length + 1) := by
  have hg : ¬(s.pgdata = "" ∨ s.pg_ctl = "") := by
    rintro (h | h)
    · exact hpg h
    · exact hctl h
  rw [pg_controldata, if_neg hg]
  exact controldata_loop_retries parse m s prog rest hp es he

/-- Witness for the amended C2: two empty results then a good one give
three invocations. -/
theorem controldata_unbounded_retry_witness :
    ∃ r s', pg_controldata (fun out => some out) false
        ⟨"/d", "/bin/pg_ctl", "", none, "*", 5432⟩
        ([⟨0, none, none⟩, ⟨0, none, none⟩] ++ ⟨0, some "data", none⟩ :: []) =
      some (r, s', ([⟨0, none, none⟩, ⟨0, none, none⟩] : List Program).length + 1) :=
  controldata_unbounded_retry (fun out => some out) false
    ⟨"/d", "/bin/pg_ctl", "", none, "*", 5432⟩
    [⟨0, none, none⟩, ⟨0, none, none⟩] ⟨0, some "data", none⟩ []
    (by decide) (by decide) (by decide) (by decide)

/-- C4 counterexample: a successful control-data read writes the parsed
record into the handle's `control` field, so the caller-supplied handle
is mutated. -/
theorem controldata_caches_in_handle :
    (pg_controldata (fun out => some out) false
        ⟨"/d", "/bin/pg_ctl", "", none, "*", 5432⟩
        [⟨0, some "data", none⟩]).map (fun r => r.2.1) =
      some ⟨"/d", "/bin/pg_ctl", "", some "data", "*", 5432⟩ ∧
    (⟨"/d", "/bin/pg_ctl", "", some "data", "*", 5432⟩ : PostgresSetup) ≠
      ⟨"/d", "/bin/pg_ctl", "", none, "*", 5432⟩ := by
  decide

/-- The loop mutates at most the `control` field of the handle. -/
theorem controldata_loop_frame (parse : String → Option String) (m : Bool)
    (s : PostgresSetup) :
    ∀ oracle : List Program,
      match pg_controldata_loop parse m s oracle with
      | some (_, s', _) =>
          s'.pgdata = s.pgdata ∧ s'.pg_ctl = s.pg_ctl ∧
          s'.pg_version = s.pg_version ∧
          s'.listen_addresses = s.listen_addresses ∧ s'.pgport = s.pgport
      | none => True := by
  intro oracle
  induction oracle with
  | nil => simp [pg_controldata_loop]
  | cons prog rest ih =>
    by_cases h0 : prog.returnCode = 0
    · cases hso : prog.stdout with
      | none =>
        cases hr : pg_controldata_loop parse m s rest with
        | none => simp [pg_controldata_loop, h0, hso, hr]
        | some r =>
          rw [hr] at ih
          simpa [pg_controldata_loop, h0, hso, hr] using ih
      | some out =>
        cases hpr : parse out with
        | none => simp [pg_controldata_loop, h0, hso, hpr]
        | some cd => simp [pg_controldata_loop, h0, hso, hpr]
    · simp [pg_controldata_loop, h0]

/-- C4 (amended): `pg_controldata` writes the parsed record into the
handle's `control` field but leaves every other field unchanged, and
`config_find_pg_ctl` rewrites the handle's `pg_ctl` and `pg_version`
fields but leaves every other field unchanged. -/
theorem controldata_and_find_frame (parse : String → Option String)
    (m : Bool) (s : PostgresSetup) (oracle : List Program)
    (pg_ctls : List String) (version : String → String) :
    (match pg_controldata parse m s oracle with
     | some (_, s', _) =>
         s'.pgdata = s.pgdata ∧ s'.pg_ctl = s.pg_ctl ∧
         s'.pg_version = s.pg_version ∧
         s'.listen_addresses = s.listen_addresses ∧ s'.pgport = s.pgport
     | none => True) ∧
    ((config_find_pg_ctl pg_ctls version s).2.pgdata = s.pgdata ∧
     (config_find_pg_ctl pg_ctls version s).2.control = s.control ∧
     (config_find_pg_ctl pg_ctls version s).2.listen_addresses =
       s.listen_addresses ∧
     (config_find_pg_ctl pg_ctls version s).2.pgport = s.pgport) := by
  constructor
  · by_cases hg : s.pgdata = "" ∨ s.pg_ctl = ""
    · simp [pg_controldata, hg]
    · rw [pg_controldata, if_neg hg]
      exact controldata_loop_frame parse m s oracle
  · match pg_ctls with
    | [] => simp [config_find_pg_ctl]
    | [program] => simp [config_find_pg_ctl]
    | a :: b :: l => simp [config_find_pg_ctl]

/-- The settings writer either fails leaving the file system unchanged,
succeeds without writing, or succeeds writing exactly its target path. -/
theorem ensure_out (w : String → Bool) (fs : FS) (path : String)
    (settings : List GUC) (ps : Option PostgresSetup) :
    ensure_default_settings_file_exists w fs path settings ps =
      ⟨false, fs, []⟩ ∨
    ensure_default_settings_file_exists w fs path settings ps =
      ⟨true, fs, []⟩ ∨
    ∃ content, ensure_default_settings_file_exists w fs path settings ps =
      ⟨true, fsWrite fs path content, [path]⟩ := by
  rcases hR : renderGUCs settings ps with _ | content
  · left
    simp [ensure_default_settings_file_exists, hR]
  · rcases hr : fsRead fs path with _ | current
    · by_cases hw : w path
      · right; right
        exact ⟨content,
          by simp [ensure_default_settings_file_exists, hR, hr, write_file, hw]⟩
      · left
        simp [ensure_default_settings_file_exists, hR, hr, write_file, hw]
    · by_cases he : current = content
      · right; left
        simp [ensure_default_settings_file_exists, hR, hr, he]
      · by_cases hw : w path
        · right; right
          exact ⟨content, by
            simp [ensure_default_settings_file_exists, hR, hr, he,
              write_file, hw]⟩
        · left
          simp [ensure_default_settings_file_exists, hR, hr, he,
            write_file, hw]

/-- The config includer either fails leaving the file system unchanged,
succeeds without writing, or succeeds writing exactly its target path. -/
theorem include_out (w : String → Bool) (fs : FS) (path inc comment : String) :
    pg_include_config w fs path inc comment = ⟨false, fs, []⟩ ∨
    pg_include_config w fs path inc comment = ⟨true, fs, []⟩ ∨
    ∃ content, pg_include_config w fs path inc comment =
      ⟨true, fsWrite fs path content, [path]⟩ := by
  rcases hr : fsRead fs path with _ | contents
  · left
    simp [pg_include_config, hr]
  · by_cases hF : includeLineFound contents inc
    · right; left
      simp [pg_include_config, hr, hF]
    · by_cases hw : w path
      · right; right
        exact ⟨inc ++ comment ++ contents,
          by simp [pg_include_config, hr, hF, write_file, hw]⟩
      · left
        simp [pg_include_config, hr, hF, write_file, hw]

/-- Full case analysis of `pg_write_standby_signal`: either the very
first step (the trigger-file write) fails and nothing is written, or the
trigger write is first in the trace, every later write targets the
standby settings file, and the trigger file holds the empty string in
the final state. -/
theorem sbsignal_cases (w : String → Bool) (fs : FS)
    (cfg pgdata ci slot : String) :
    ((pg_write_standby_signal w fs cfg pgdata ci slot).trace = [] ∧
     (pg_write_standby_signal w fs cfg pgdata ci slot).ok = false ∧
     w (joinPath pgdata "standby.signal") = false) ∨
    (w (joinPath pgdata "standby.signal") = true ∧
     (∃ t, (pg_write_standby_signal w fs cfg pgdata ci slot).trace =
         joinPath pgdata "standby.signal" :: t ∧
       ∀ p ∈ t, p = pathInSameDirectory cfg AUTOCTL_STANDBY_CONF_FILENAME) ∧
     fsRead (pg_write_standby_signal w fs cfg pgdata ci slot).fs
       (joinPath pgdata "standby.signal") = some "") := by
  by_cases hw : w (joinPath pgdata "standby.signal") = true
  · right
    refine ⟨hw, ?_⟩
    have h1 : write_file w "" (joinPath pgdata "standby.signal") fs =
        ⟨true, fsWrite fs (joinPath pgdata "standby.signal") "",
          [joinPath pgdata "standby.signal"]⟩ := by
      simp [write_file, hw]
    have hne := sbconf_ne_signal cfg pgdata
    rcases ensure_out w (fsWrite fs (joinPath pgdata "standby.signal") "")
        (pathInSameDirectory cfg AUTOCTL_STANDBY_CONF_FILENAME)
        (standbySettings ci slot) none with h2 | h2 | ⟨S, h2⟩
    · have hout : pg_write_standby_signal w fs cfg pgdata ci slot =
          ⟨false, fsWrite fs (joinPath pgdata "standby.signal") "",
            [joinPath pgdata "standby.signal"]⟩ := by
        simp [pg_write_standby_signal, h1, h2]
      rw [hout]
      exact ⟨⟨[], rfl, by simp⟩, fsRead_write_self _ _ _⟩
    · rcases include_out w (fsWrite fs (joinPath pgdata "standby.signal") "")
          (pathInSameDirectory cfg AUTOCTL_STANDBY_CONF_FILENAME)
          AUTOCTL_SB_CONF_INCLUDE_LINE AUTOCTL_CONF_INCLUDE_COMMENT with
            h3 | h3 | ⟨C, h3⟩
      · have hout : pg_write_standby_signal w fs cfg pgdata ci slot =
            ⟨false, fsWrite fs (joinPath pgdata "standby.signal") "",
              [joinPath pgdata "standby.signal"]⟩ := by
          simp [pg_write_standby_signal, h1, h2, h3]
        rw [hout]
        exact ⟨⟨[], rfl, by simp⟩, fsRead_write_self _ _ _⟩
      · have hout : pg_write_standby_signal w fs cfg pgdata ci slot =
            ⟨true, fsWrite fs (joinPath pgdata "standby.signal") "",
              [joinPath pgdata "standby.signal"]⟩ := by
          simp [pg_write_standby_signal, h1, h2, h3]
        rw [hout]
        exact ⟨⟨[], rfl, by simp⟩, fsRead_write_self _ _ _⟩
      · have hout : pg_write_standby_signal w fs cfg pgdata ci slot =
            ⟨true,
              fsWrite (fsWrite fs (joinPath pgdata "standby.signal") "")
                (pathInSameDirectory cfg AUTOCTL_STANDBY_CONF_FILENAME) C,
              [joinPath pgdata "standby.signal",
               pathInSameDirectory cfg AUTOCTL_STANDBY_CONF_FILENAME]⟩ := by
          simp [pg_write_standby_signal, h1, h2, h3]
        rw [hout]
        refine ⟨⟨[pathInSameDirectory cfg AUTOCTL_STANDBY_CONF_FILENAME],
          rfl, by simp⟩, ?_⟩
        rw [fsRead_write_ne _ _ _ _ hne]
        exact fsRead_write_self _ _ _
    · rcases include_out w
          (fsWrite (fsWrite fs (joinPath pgdata "standby.signal") "")
            (pathInSameDirectory cfg AUTOCTL_STANDBY_CONF_FILENAME) S)
          (pathInSameDirectory cfg AUTOCTL_STANDBY_CONF_FILENAME)
          AUTOCTL_SB_CONF_INCLUDE_LINE AUTOCTL_CONF_INCLUDE_COMMENT with
            h3 | h3 | ⟨C, h3⟩
      · have hout : pg_write_standby_signal w fs cfg pgdata ci slot =
            ⟨false,
              fsWrite (fsWrite fs (joinPath pgdata "standby.signal") "")
                (pathInSameDirectory cfg AUTOCTL_STANDBY_CONF_FILENAME) S,
              [joinPath pgdata "standby.signal",
               pathInSameDirectory cfg AUTOCTL_STANDBY_CONF_FILENAME]⟩ := by
          simp [pg_write_standby_signal, h1, h2, h3]
        rw [hout]
        refine ⟨⟨[pathInSameDirectory cfg AUTOCTL_STANDBY_CONF_FILENAME],
          rfl, by simp⟩, ?_⟩
        rw [fsRead_write_ne _ _ _ _ hne]
        exact fsRead_write_self _ _ _
      · have hout : pg_write_standby_signal w fs cfg pgdata ci slot =
            ⟨true,
              fsWrite (fsWrite fs (joinPath pgdata "standby.signal") "")
                (pathInSameDirectory cfg AUTOCTL_STANDBY_CONF_FILENAME) S,
              [joinPath pgdata "standby.signal",
               pathInSameDirectory cfg AUTOCTL_STANDBY_CONF_FILENAME]⟩ := by
          simp [pg_write_standby_signal, h1, h2, h3]
        rw [hout]
        refine ⟨⟨[pathInSameDirectory cfg AUTOCTL_STANDBY_CONF_FILENAME],
          rfl, by simp⟩, ?_⟩
        rw [fsRead_write_ne _ _ _ _ hne]
        exact fsRead_write_self _ _ _
      · have hout : pg_write_standby_signal w fs cfg pgdata ci slot =
            ⟨true,
              fsWrite
                (fsWrite (fsWrite fs (joinPath pgdata "standby.signal") "")
                  (pathInSameDirectory cfg AUTOCTL_STANDBY_CONF_FILENAME) S)
                (pathInSameDirectory cfg AUTOCTL_STANDBY_CONF_FILENAME) C,
              [joinPath pgdata "standby.signal",
               pathInSameDirectory cfg AUTOCTL_STANDBY_CONF_FILENAME,
               pathInSameDirectory cfg AUTOCTL_STANDBY_CONF_FILENAME]⟩ := by
          simp [pg_write_standby_signal, h1, h2, h3]
        rw [hout]
        refine ⟨⟨[pathInSameDirectory cfg AUTOCTL_STANDBY_CONF_FILENAME,
          pathInSameDirectory cfg AUTOCTL_STANDBY_CONF_FILENAME],
          rfl, by simp⟩, ?_⟩
        rw [fsRead_write_ne _ _ _ _ hne, fsRead_write_ne _ _ _ _ hne]
        exact fsRead_write_self _ _ _
  · left
    have hw0 : w (joinPath pgdata "standby.signal") = false :=
      Bool.not_eq_true _ ▸ (by simpa using hw)
    have hout : pg_write_standby_signal w fs cfg pgdata ci slot =
        ⟨false, fs, []⟩ := by
      simp [pg_write_standby_signal, write_file, hw0]
    rw [hout]
    exact ⟨rfl, rfl, hw0⟩

/-- C7: in the modern standby-setup path, either the trigger-file write
itself fails and the operation fails having written nothing, or the
trigger file is the first write of the execution and it exists (empty)
in the final state — including every execution in which a later step
(settings rendering or include insertion) fails.  Connection settings
are never durable without the trigger artifact. -/
theorem standby_trigger_written_first (w : String → Bool) (fs : FS)
    (cfg pgdata ci slot : String) :
    ((pg_write_standby_signal w fs cfg pgdata ci slot).trace = [] ∧
     (pg_write_standby_signal w fs cfg pgdata ci slot).ok = false) ∨
    ((pg_write_standby_signal w fs cfg pgdata ci slot).trace.head? =
       some (joinPath pgdata "standby.signal") ∧
     fsRead (pg_write_standby_signal w fs cfg pgdata ci slot).fs
       (joinPath pgdata "standby.signal") = some "") := by
  rcases sbsignal_cases w fs cfg pgdata ci slot with
    ⟨h1, h2, _⟩ | ⟨_, ⟨t, ht, _⟩, hr⟩
  · exact Or.inl ⟨h1, h2⟩
  · refine Or.inr ⟨?_, hr⟩
    rw [ht]
    rfl

/-- C6: below control version 1200 the legacy `recovery.conf` (with the
standby-mode flag, the primary connection string, the quoted slot name
and the latest-timeline directive) is written and the trigger file is
never written; at or above 1200 the empty `standby.signal` trigger file
is written and the legacy recovery file is never written. -/
theorem setup_standby_version_boundary (w : String → Bool) (fs : FS)
    (v : Nat) (cfg pgdata : String) (rs : ReplicationSource) :
    (v < 1200 →
       joinPath pgdata "standby.signal" ∉
         (pg_setup_standby_mode w fs v cfg pgdata rs).trace ∧
       ((pg_setup_standby_mode w fs v cfg pgdata rs).ok = true →
         ∃ ci, prepare_primary_conninfo MAXCONNINFO rs.primaryNode.host
             rs.primaryNode.port rs.userName rs.password = some ci ∧
           (pg_setup_standby_mode w fs v cfg pgdata rs).trace =
             [joinPath pgdata "recovery.conf"] ∧
           fsRead (pg_setup_standby_mode w fs v cfg pgdata rs).fs
               (joinPath pgdata "recovery.conf") =
             some (recoveryConfContents ci rs.slotName))) ∧
    (1200 ≤ v →
       joinPath pgdata "recovery.conf" ∉
         (pg_setup_standby_mode w fs v cfg pgdata rs).trace ∧
       ((pg_setup_standby_mode w fs v cfg pgdata rs).ok = true →
         (pg_setup_standby_mode w fs v cfg pgdata rs).trace.head? =
           some (joinPath pgdata "standby.signal") ∧
         fsRead (pg_setup_standby_mode w fs v cfg pgdata rs).fs
           (joinPath pgdata "standby.signal") = some "")) := by
  rcases hP : prepare_primary_conninfo MAXCONNINFO rs.primaryNode.host
      rs.primaryNode.port rs.userName rs.password with _ | ci
  · have hout : pg_setup_standby_mode w fs v cfg pgdata rs =
        ⟨false, fs, []⟩ := by
      simp [pg_setup_standby_mode, hP]
    rw [hout]
    constructor
    · intro _
      exact ⟨by simp, by intro h; cases h⟩
    · intro _
      exact ⟨by simp, by intro h; cases h⟩
  · by_cases hv : v < 1200
    · have hout : pg_setup_standby_mode w fs v cfg pgdata rs =
          pg_write_recovery_conf w fs pgdata ci rs.slotName := by
        simp [pg_setup_standby_mode, hP, hv]
      refine ⟨fun _ => ?_, fun h1200 => absurd hv (by omega)⟩
      rw [hout]
      by_cases hw : w (joinPath pgdata "recovery.conf") = true
      · have hrec : pg_write_recovery_conf w fs pgdata ci rs.slotName =
            ⟨true,
              fsWrite fs (joinPath pgdata "recovery.conf")
                (recoveryConfContents ci rs.slotName),
              [joinPath pgdata "recovery.conf"]⟩ := by
          simp [pg_write_recovery_conf, write_file, hw]
        rw [hrec]
        refine ⟨?_, fun _ => ⟨ci, rfl, rfl, fsRead_write_self _ _ _⟩⟩
        simp only [List.mem_singleton]
        exact fun h => recovery_ne_signal pgdata h.symm
      · have hw0 : w (joinPath pgdata "recovery.conf") = false := by
          simpa using hw
        have hrec : pg_write_recovery_conf w fs pgdata ci rs.slotName =
            ⟨false, fs, []⟩ := by
          simp [pg_write_recovery_conf, write_file, hw0]
        rw [hrec]
        exact ⟨by simp, by intro h; cases h⟩
    · have hout : pg_setup_standby_mode w fs v cfg pgdata rs =
          pg_write_standby_signal w fs cfg pgdata ci rs.slotName := by
        simp [pg_setup_standby_mode, hP, hv]
      refine ⟨fun hlt => absurd hlt hv, fun _ => ?_⟩
      rw [hout]
      rcases sbsignal_cases w fs cfg pgdata ci rs.slotName with
        ⟨h1, h2, _⟩ | ⟨_, ⟨t, ht, hmem⟩, hr⟩
      · rw [h1, h2]
        exact ⟨by simp, by intro h; cases h⟩
      · refine ⟨?_, fun _ => ⟨by rw [ht]; rfl, hr⟩⟩
        rw [ht]
        intro hmem2
        rcases List.mem_cons.mp hmem2 with h | h
        · exact recovery_ne_signal pgdata h
        · exact recovery_ne_sbconf pgdata cfg (hmem _ h ▸ rfl)

/-- Witness for C6 at control version 1100 (legacy side) with concrete
inputs. -/
theorem setup_standby_version_boundary_witness :
    joinPath "/pg/data" "standby.signal" ∉
      (pg_setup_standby_mode (fun _ => true) [] 1100 "/pg/postgresql.conf"
        "/pg/data" ⟨⟨"h", 5432⟩, "u", none, "s"⟩).trace ∧
    ∃ ci, prepare_primary_conninfo MAXCONNINFO "h" 5432 "u" none = some ci ∧
      (pg_setup_standby_mode (fun _ => true) [] 1100 "/pg/postgresql.conf"
        "/pg/data" ⟨⟨"h", 5432⟩, "u", none, "s"⟩).trace =
        [joinPath "/pg/data" "recovery.conf"] ∧
      fsRead (pg_setup_standby_mode (fun _ => true) [] 1100
          "/pg/postgresql.conf" "/pg/data" ⟨⟨"h", 5432⟩, "u", none, "s"⟩).fs
          (joinPath "/pg/data" "recovery.conf") =
        some (recoveryConfContents ci "s") := by
  have h := (setup_standby_version_boundary (fun _ => true) [] 1100
    "/pg/postgresql.conf" "/pg/data" ⟨⟨"h", 5432⟩, "u", none, "s"⟩).1
    (by decide)
  exact ⟨h.1, h.2 (by decide)⟩

set_option maxRecDepth 10000 in
/-- C1: evaluating the modern standby-setup path on a concrete
configuration shows the include directive is prepended to the standby
settings file itself, while the main configuration file named by
`configFilePath` is left untouched and never written — contradicting
both the claim and the code's own comment that the settings file is to
be included from `postgresql.conf` — yet the operation returns
success. -/
theorem standby_signal_include_misdirected :
    (pg_write_standby_signal (fun _ => true)
        [("/pg/postgresql.conf", "listen = on\n")]
        "/pg/postgresql.conf" "/pg/data" "conninfo" "slot1").ok = true ∧
    fsRead (pg_write_standby_signal (fun _ => true)
        [("/pg/postgresql.conf", "listen = on\n")]
        "/pg/postgresql.conf" "/pg/data" "conninfo" "slot1").fs
        "/pg/postgresql.conf" = some "listen = on\n" ∧
    "/pg/postgresql.conf" ∉ (pg_write_standby_signal (fun _ => true)
        [("/pg/postgresql.conf", "listen = on\n")]
        "/pg/postgresql.conf" "/pg/data" "conninfo" "slot1").trace ∧
    fsRead (pg_write_standby_signal (fun _ => true)
        [("/pg/postgresql.conf", "listen = on\n")]
        "/pg/postgresql.conf" "/pg/data" "conninfo" "slot1").fs
        "/pg/postgresql-auto-failover-standby.conf" =
      some (AUTOCTL_SB_CONF_INCLUDE_LINE ++ AUTOCTL_CONF_INCLUDE_COMMENT ++
        ("# Settings by pg_auto_failover\n" ++
         "primary_conninfo = conninfo\n" ++
         "primary_slot_name = slot1\n" ++
         "recovery_target_timeline = latest\n")) := by
  decide

/-- C8: whenever the start subcommand exits non-zero, the status probe
runs; a zero probe code reclassifies the outcome as success with the
captured start output appended to the startup log (and logged as a
warning), while a non-zero probe code yields failure with the captured
output surfaced at error level (and still appended to the log). -/
theorem start_disambiguation (pgdata : String) (start statusP : Program)
    (h : start.returnCode ≠ 0) :
    (pg_ctl_start pgdata start statusP).statusProbeRan = true ∧
    (statusP.returnCode = 0 →
       (pg_ctl_start pgdata start statusP).success = true ∧
       ∀ o, start.stdout = some o →
         (joinPath pgdata "startup.log", o) ∈
             (pg_ctl_start pgdata start statusP).appends ∧
           o ∈ (pg_ctl_start pgdata start statusP).warnedOutput) ∧
    (statusP.returnCode ≠ 0 →
       (pg_ctl_start pgdata start statusP).success = false ∧
       ∀ o, start.stdout = some o →
         o ∈ (pg_ctl_start pgdata start statusP).erroredOutput ∧
           (joinPath pgdata "startup.log", o) ∈
             (pg_ctl_start pgdata start statusP).appends) := by
  refine ⟨?_, ?_, ?_⟩
  · by_cases hs : statusP.returnCode = 0 <;> simp [pg_ctl_start, h, hs]
  · intro hs
    refine ⟨by simp [pg_ctl_start, h, hs], ?_⟩
    intro o ho
    simp [pg_ctl_start, h, hs, ho]
  · intro hs
    refine ⟨by simp [pg_ctl_start, h, hs], ?_⟩
    intro o ho
    simp [pg_ctl_start, h, hs, ho]

/-- Witness for C8: a failed start with a successful status probe is an
overall success whose captured output reached the startup log. -/
theorem start_disambiguation_witness :
    (pg_ctl_start "/pg/data" ⟨1, some "boot out", none⟩
        ⟨0, none, none⟩).statusProbeRan = true ∧
    (pg_ctl_start "/pg/data" ⟨1, some "boot out", none⟩
        ⟨0, none, none⟩).success = true ∧
    (joinPath "/pg/data" "startup.log", "boot out") ∈
      (pg_ctl_start "/pg/data" ⟨1, some "boot out", none⟩
        ⟨0, none, none⟩).appends := by
  have h := start_disambiguation "/pg/data" ⟨1, some "boot out", none⟩
    ⟨0, none, none⟩ (by decide)
  exact ⟨h.1, (h.2.1 rfl).1, ((h.2.1 rfl).2 "boot out" rfl).1⟩

/-- C9: a zero stop exit code is success; on non-zero exit with a
missing data directory the operation succeeds without probing status;
otherwise the status probe runs and code 3 (`PROGRAM_NOT_RUNNING`)
yields success while any other status code yields failure with the
captured stop output surfaced. -/
theorem stop_disambiguation (stop : Program) (pgdataExists : Bool)
    (st : Int) :
    (stop.returnCode = 0 →
       pg_ctl_stop stop pgdataExists st = ⟨true, false, []⟩) ∧
    (stop.returnCode ≠ 0 → pgdataExists = false →
       pg_ctl_stop stop pgdataExists st = ⟨true, false, []⟩) ∧
    (stop.returnCode ≠ 0 → pgdataExists = true →
       st = PROGRAM_NOT_RUNNING →
       pg_ctl_stop stop pgdataExists st = ⟨true, true, []⟩) ∧
    (stop.returnCode ≠ 0 → pgdataExists = true →
       st ≠ PROGRAM_NOT_RUNNING →
       (pg_ctl_stop stop pgdataExists st).success = false ∧
       (pg_ctl_stop stop pgdataExists st).statusProbeRan = true ∧
       (∀ o, stop.stdout = some o →
          o ∈ (pg_ctl_stop stop pgdataExists st).surfacedOutput) ∧
       (∀ e, stop.stderr = some e →
          e ∈ (pg_ctl_stop stop pgdataExists st).surfacedOutput)) := by
  refine ⟨?_, ?_, ?_, ?_⟩
  · intro h0
    simp [pg_ctl_stop, h0]
  · intro h0 hex
    simp [pg_ctl_stop, h0, hex]
  · intro h0 hex hst
    simp [pg_ctl_stop, h0, hex, hst]
  · intro h0 hex hst
    refine ⟨by simp [pg_ctl_stop, h0, hex, hst], by simp [pg_ctl_stop, h0, hex, hst], ?_, ?_⟩
    · intro o ho
      cases he : stop.stderr <;> simp [pg_ctl_stop, h0, hex, hst, ho, he]
    · intro e he
      cases ho : stop.stdout <;> simp [pg_ctl_stop, h0, hex, hst, ho, he]

/-- Witness for C9: a failed stop with an existing data directory and a
status code other than 3 fails and surfaces the captured output. -/
theorem stop_disambiguation_witness :
    (pg_ctl_stop ⟨1, some "out", some "err"⟩ true 4).success = false ∧
    (pg_ctl_stop ⟨1, some "out", some "err"⟩ true 4).statusProbeRan = true ∧
    "out" ∈ (pg_ctl_stop ⟨1, some "out", some "err"⟩ true 4).surfacedOutput ∧
    "err" ∈ (pg_ctl_stop ⟨1, some "out", some "err"⟩ true 4).surfacedOutput := by
  have h := (stop_disambiguation ⟨1, some "out", some "err"⟩ true 4).2.2.2
    (by decide) rfl (by decide)
  exact ⟨h.1, h.2.1, h.2.2.1 "out" rfl, h.2.2.2 "err" rfl⟩

/-- Splitting at a newline that terminates a newline-free prefix. -/
theorem splitLinesCL_append_newline :
    ∀ (p rest : List Char), '\n' ∉ p →
      splitLinesCL (p ++ '\n' :: rest) = p :: splitLinesCL rest
  | [], rest, _ => by simp [splitLinesCL]
  | a :: p, rest, h => by
    have ha : a ≠ '\n' := by
      intro e
      exact h (e ▸ List.mem_cons_self a p)
    have hp : '\n' ∉ p := fun e => h (List.mem_cons_of_mem a e)
    rw [List.cons_append, splitLinesCL, if_neg ha,
      splitLinesCL_append_newline p rest hp]

/-- The include comment is a newline-free text followed by one final
newline. -/
theorem comment_decomp :
    AUTOCTL_CONF_INCLUDE_COMMENT.data =
      " # Auto-generated by pg_auto_failover, do not remove".data ++ ['\n'] := by
  decide

/-- The lines of `includeLine ++ comment ++ originalContents`: the
prepended include line (carrying the trailing comment) followed by the
original lines. -/
theorem include_new_content_lines (inc c : String) (hnl : '\n' ∉ inc.data) :
    splitLinesCL (inc ++ AUTOCTL_CONF_INCLUDE_COMMENT ++ c).data =
      (inc.data ++
        " # Auto-generated by pg_auto_failover, do not remove".data) ::
        splitLinesCL c.data := by
  have hd : (inc ++ AUTOCTL_CONF_INCLUDE_COMMENT ++ c).data =
      (inc.data ++
        " # Auto-generated by pg_auto_failover, do not remove".data) ++
        '\n' :: c.data := by
    simp [String.data_append, comment_decomp]
  rw [hd]
  apply splitLinesCL_append_newline
  intro hmem
  rcases List.mem_append.mp hmem with h1 | h2
  · exact hnl h1
  · exact absurd h2 (by decide)

/-- C10 (amended): the includer is an idempotent no-op once a matching
line exists — the second of two identical calls never modifies the file
— and one call adds exactly one matching line to a file that had none;
a file that already held matching lines is left with however many it
already had. -/
theorem include_config_idempotent (w : String → Bool) (fs : FS)
    (path c inc : String)
    (hread : fsRead fs path = some c) (hw : w path = true)
    (hnl : '\n' ∉ inc.data) :
    (pg_include_config w fs path inc AUTOCTL_CONF_INCLUDE_COMMENT).ok =
      true ∧
    pg_include_config w
        (pg_include_config w fs path inc AUTOCTL_CONF_INCLUDE_COMMENT).fs
        path inc AUTOCTL_CONF_INCLUDE_COMMENT =
      ⟨true,
        (pg_include_config w fs path inc AUTOCTL_CONF_INCLUDE_COMMENT).fs,
        []⟩ ∧
    (includeLineFound c inc = true →
       (pg_include_config w fs path inc AUTOCTL_CONF_INCLUDE_COMMENT).fs =
         fs) ∧
    (includeLineFound c inc = false →
       ∃ c', fsRead
           (pg_include_config w fs path inc
             AUTOCTL_CONF_INCLUDE_COMMENT).fs path = some c' ∧
         includeLineCount c' inc = includeLineCount c inc + 1) := by
  by_cases hF : includeLineFound c inc = true
  · have h1 : pg_include_config w fs path inc AUTOCTL_CONF_INCLUDE_COMMENT =
        ⟨true, fs, []⟩ := by
      simp [pg_include_config, hread, hF]
    rw [h1]
    refine ⟨rfl, by simp [pg_include_config, hread, hF], fun _ => rfl, ?_⟩
    intro hFf
    rw [hF] at hFf
    cases hFf
  · have hFf : includeLineFound c inc = false := by simpa using hF
    have h1 : pg_include_config w fs path inc AUTOCTL_CONF_INCLUDE_COMMENT =
        ⟨true,
          fsWrite fs path (inc ++ AUTOCTL_CONF_INCLUDE_COMMENT ++ c),
          [path]⟩ := by
      simp [pg_include_config, hread, hFf, write_file, hw]
    have hfound2 : includeLineFound
        (inc ++ AUTOCTL_CONF_INCLUDE_COMMENT ++ c) inc = true := by
      rw [includeLineFound, include_new_content_lines inc c hnl]
      simp [isPrefixOf_append]
    rw [h1]
    refine ⟨rfl, ?_, ?_, ?_⟩
    · simp [pg_include_config, fsRead_write_self, hfound2]
    · intro hFt
      rw [hFt] at hFf
      cases hFf
    · intro _
      refine ⟨inc ++ AUTOCTL_CONF_INCLUDE_COMMENT ++ c,
        fsRead_write_self _ _ _, ?_⟩
      rw [includeLineCount, include_new_content_lines inc c hnl,
        List.countP_cons, includeLineCount]
      simp [isPrefixOf_append]

/-- Witness for the amended C10 on a concrete file with no matching
line: the write happens once, the second call is a no-op, and exactly
one matching line results. -/
theorem include_config_idempotent_witness :
    (pg_include_config (fun _ => true) [("/pg/postgresql.conf", "x\n")]
        "/pg/postgresql.conf" AUTOCTL_CONF_INCLUDE_LINE
        AUTOCTL_CONF_INCLUDE_COMMENT).ok = true ∧
    pg_include_config (fun _ => true)
        (pg_include_config (fun _ => true) [("/pg/postgresql.conf", "x\n")]
          "/pg/postgresql.conf" AUTOCTL_CONF_INCLUDE_LINE
          AUTOCTL_CONF_INCLUDE_COMMENT).fs
        "/pg/postgresql.conf" AUTOCTL_CONF_INCLUDE_LINE
        AUTOCTL_CONF_INCLUDE_COMMENT =
      ⟨true,
        (pg_include_config (fun _ => true) [("/pg/postgresql.conf", "x\n")]
          "/pg/postgresql.conf" AUTOCTL_CONF_INCLUDE_LINE
          AUTOCTL_CONF_INCLUDE_COMMENT).fs,
        []⟩ ∧
    (includeLineFound "x\n" AUTOCTL_CONF_INCLUDE_LINE = true →
       (pg_include_config (fun _ => true) [("/pg/postgresql.conf", "x\n")]
         "/pg/postgresql.conf" AUTOCTL_CONF_INCLUDE_LINE
         AUTOCTL_CONF_INCLUDE_COMMENT).fs =
         [("/pg/postgresql.conf", "x\n")]) ∧
    (includeLineFound "x\n" AUTOCTL_CONF_INCLUDE_LINE = false →
       ∃ c', fsRead (pg_include_config (fun _ => true)
           [("/pg/postgresql.conf", "x\n")] "/pg/postgresql.conf"
           AUTOCTL_CONF_INCLUDE_LINE AUTOCTL_CONF_INCLUDE_COMMENT).fs
           "/pg/postgresql.conf" = some c' ∧
         includeLineCount c' AUTOCTL_CONF_INCLUDE_LINE =
           includeLineCount "x\n" AUTOCTL_CONF_INCLUDE_LINE + 1) :=
  include_config_idempotent (fun _ => true) [("/pg/postgresql.conf", "x\n")]
    "/pg/postgresql.conf" "x\n" AUTOCTL_CONF_INCLUDE_LINE
    (by decide) rfl (by decide)

/-- C10 counterexample: on a file already holding two lines matching
the detection pattern, both calls are no-ops and the file keeps two
occurrences of the include line, not exactly one. -/
theorem include_config_two_occurrences :
    (pg_include_config (fun _ => true)
        [("/c.conf", AUTOCTL_CONF_INCLUDE_LINE ++ " # x\n" ++
          AUTOCTL_CONF_INCLUDE_LINE ++ "\n")]
        "/c.conf" AUTOCTL_CONF_INCLUDE_LINE
        AUTOCTL_CONF_INCLUDE_COMMENT).ok = true ∧
    pg_include_config (fun _ => true)
        (pg_include_config (fun _ => true)
          [("/c.conf", AUTOCTL_CONF_INCLUDE_LINE ++ " # x\n" ++
            AUTOCTL_CONF_INCLUDE_LINE ++ "\n")]
          "/c.conf" AUTOCTL_CONF_INCLUDE_LINE
          AUTOCTL_CONF_INCLUDE_COMMENT).fs
        "/c.conf" AUTOCTL_CONF_INCLUDE_LINE AUTOCTL_CONF_INCLUDE_COMMENT =
      ⟨true,
        [("/c.conf", AUTOCTL_CONF_INCLUDE_LINE ++ " # x\n" ++
          AUTOCTL_CONF_INCLUDE_LINE ++ "\n")],
        []⟩ ∧
    includeLineCount (AUTOCTL_CONF_INCLUDE_LINE ++ " # x\n" ++
        AUTOCTL_CONF_INCLUDE_LINE ++ "\n") AUTOCTL_CONF_INCLUDE_LINE = 2 ∧
    ¬(2 = 1) := by
  decide

end PgCtl
